import Mathlib

/-!
Shallow embedding of the Bitcoin address-analysis repository
(`bitcoin_analysis.py`, `app.py`, `bubble_map_visualizer.py`) and proofs
of the specification claims about it.

Monetary amounts are modelled as exact rationals (the Python code uses
floats, `satoshis / 100000000`); machine timestamps as integers.
-/

namespace BitcoinAnalysis

/-- One transaction leg (an entry of `vin[i]['prevout']` or `vout[i]`):
an optional `scriptpubkey_address` and a value in satoshis. -/
structure TxLeg where
  address : Option String
  value : Nat
deriving DecidableEq, Repr

/-- The `status` object of a raw transaction: `confirmed` flag and
`block_time` (meaningful only when confirmed). -/
structure TxStatus where
  confirmed : Bool
  block_time : Nat
deriving DecidableEq, Repr

/-- A raw transaction record as consumed by the analyzer: txid, status,
input legs (their prevouts), output legs, fee. -/
structure Transaction where
  txid : String
  status : TxStatus
  vin : List TxLeg
  vout : List TxLeg
  fee : Nat
deriving DecidableEq, Repr

/-- `satoshi_to_btc`: divide by 100000000 (exact, over the rationals). -/
def satoshiToBtc (satoshis : Int) : ℚ :=
  (satoshis : ℚ) / 100000000

/-- Sum of the values of output legs paying `address`
(the `amount_in` loop of `process_transactions` / `create_timeline_data`). -/
def txAmountIn (address : String) (tx : Transaction) : Nat :=
  ((tx.vout.filter (fun leg => leg.address = some address)).map TxLeg.value).sum

/-- Sum of the values of input legs drawn from `address`
(the `amount_out` loop of `process_transactions` / `create_timeline_data`). -/
def txAmountOut (address : String) (tx : Transaction) : Nat :=
  ((tx.vin.filter (fun leg => leg.address = some address)).map TxLeg.value).sum

/-- Net amount of a transaction for `address`, in satoshis:
`amount_in - amount_out`. -/
def txNetSatoshis (address : String) (tx : Transaction) : Int :=
  (txAmountIn address tx : Int) - (txAmountOut address tx : Int)

/-! ## `process_transactions` (bitcoin_analysis.py, lines 108-154) -/

/-- One element of the `processed_transactions` list built by
`process_transactions` (only the fields the claims mention). -/
structure ProcessedTx where
  txid : String
  confirmed : Bool
  net_amount_satoshis : Int
  net_amount_btc : ℚ
  transaction_type : String
  fee_satoshis : Nat
deriving DecidableEq, Repr

/-- The body of the `process_transactions` loop for one transaction. -/
def processTx (address : String) (tx : Transaction) : ProcessedTx :=
  let net := txNetSatoshis address tx
  { txid := tx.txid
    confirmed := tx.status.confirmed
    net_amount_satoshis := net
    net_amount_btc := satoshiToBtc net
    transaction_type := if net > 0 then "Received" else "Sent"
    fee_satoshis := tx.fee }

/-- `process_transactions(transactions, address, limit)`: processes the
first `limit` transactions. -/
def processTransactions (txs : List Transaction) (address : String) (limit : Nat) :
    List ProcessedTx :=
  (txs.take limit).map (processTx address)

/-! ## `create_timeline_data` (bitcoin_analysis.py, lines 297-378) -/

/-- One `tx_data` dict appended to `timeline_data['transactions']`. -/
structure TimelineTxData where
  txid : String
  timestamp : Nat
  net_amount_btc : ℚ
  net_amount_satoshis : Int
  amount_btc : ℚ
  amount_satoshis : Nat
  type : String
  fee_satoshis : Nat
deriving DecidableEq, Repr

/-- Builds the `tx_data` dict of `create_timeline_data` for one confirmed
transaction. -/
def mkTimelineTxData (address : String) (tx : Transaction) : TimelineTxData :=
  let net := txNetSatoshis address tx
  { txid := tx.txid
    timestamp := tx.status.block_time
    net_amount_btc := satoshiToBtc net
    net_amount_satoshis := net
    amount_btc := |satoshiToBtc net|
    amount_satoshis := net.natAbs
    type := if satoshiToBtc net > 0 then "Received" else "Sent"
    fee_satoshis := tx.fee }

/-- Ascending timestamp order used by
`timeline_data['transactions'].sort(key=lambda x: x['timestamp'])`. -/
def tsLe (a b : TimelineTxData) : Prop := a.timestamp ≤ b.timestamp

instance : DecidableRel tsLe := fun a b => Nat.decLe a.timestamp b.timestamp

instance : IsTotal TimelineTxData tsLe := ⟨fun a b => Nat.le_total a.timestamp b.timestamp⟩

instance : IsTrans TimelineTxData tsLe :=
  ⟨fun _ _ _ hab hbc => Nat.le_trans hab hbc⟩

/-- The `summary_stats` object of `create_timeline_data`. -/
structure TimelineSummary where
  total_confirmed_transactions : Nat
  total_received_btc : ℚ
  total_sent_btc : ℚ
deriving DecidableEq, Repr

/-- The `timeline_data` result of `create_timeline_data`. -/
structure TimelineData where
  address : String
  transactions : List TimelineTxData
  summary_stats : TimelineSummary
deriving DecidableEq, Repr

/-- `create_timeline_data(transactions, address)`: keeps confirmed
transactions, builds one timeline point per transaction, accumulates
`total_received` from positive nets and `total_sent` from the absolute
value of non-positive nets, and sorts the points by timestamp (Python's
`list.sort` is stable; modelled by stable insertion sort). -/
def createTimelineData (txs : List Transaction) (address : String) : TimelineData :=
  let pts := (txs.filter (fun tx => tx.status.confirmed)).map (mkTimelineTxData address)
  let total_received := (pts.map (fun p => if p.net_amount_btc > 0 then p.net_amount_btc else 0)).sum
  let total_sent := (pts.map (fun p => if p.net_amount_btc > 0 then 0 else |p.net_amount_btc|)).sum
  { address := address
    transactions := List.insertionSort tsLe pts
    summary_stats :=
      { total_confirmed_transactions := pts.length
        total_received_btc := total_received
        total_sent_btc := total_sent } }

/-! ## Timestamp normalization in `app.py`
(`create_transaction_timeline_plot`, lines 35-122, and
`create_balance_over_time_plot`, lines 124-208).

A raw timestamp field value is either a number (epoch seconds) or a
string; the ISO-string parse (`datetime.fromisoformat` after replacing
the `Z` suffix) is modelled by an arbitrary parser argument
`p : String → Option Int` returning `none` where Python would raise. -/

/-- A raw value found in a timeline entry's `date`, `formatted_date` or
`timestamp` field. -/
inductive TimeVal where
  | epoch (n : Int)
  | str (s : String)
deriving DecidableEq, Repr

/-- Python truthiness of a timestamp field value (`0` and `""` are falsy). -/
def TimeVal.truthy : TimeVal → Bool
  | .epoch n => n ≠ 0
  | .str s => s ≠ ""

/-- A timeline entry as read back from JSON by `app.py` (only the fields
the plotting code touches). -/
structure Entry where
  date : Option TimeVal
  formatted_date : Option TimeVal
  timestamp : Option TimeVal
  net_amount_btc : ℚ
  transaction_type : String
deriving DecidableEq, Repr

/-- First truthy value of a field list: models the chain
`tx.get('date') or tx.get('formatted_date') or tx.get('timestamp')`
followed by the `if date_str:` truthiness test. -/
def firstTruthy : List (Option TimeVal) → Option TimeVal
  | [] => none
  | none :: rest => firstTruthy rest
  | some v :: rest => if v.truthy then some v else firstTruthy rest

/-- Resolution of the timestamp field of an entry: the fields
`date`, `formatted_date`, `timestamp` are tried in this order. -/
def resolveDateField (e : Entry) : Option TimeVal :=
  firstTruthy [e.date, e.formatted_date, e.timestamp]

/-- The `get_date` helper of `create_balance_over_time_plot`: numeric
values go through `datetime.fromtimestamp`, strings through
`fromisoformat` after `Z` normalization; `none` models `datetime.min`
(unresolvable or unparseable). -/
def getDate (p : String → Option Int) (e : Entry) : Option Int :=
  match resolveDateField e with
  | none => none
  | some (TimeVal.epoch n) => some n
  | some (TimeVal.str s) => p (s.replace "Z" "+00:00")

/-- The three parallel series accumulated by
`create_transaction_timeline_plot`. -/
structure PlotSeries where
  dates : List Int
  amounts : List ℚ
  tx_types : List String
deriving DecidableEq, Repr

/-- One iteration of the `for tx in timeline_data` loop of
`create_transaction_timeline_plot`: a parse failure (`except` branch)
runs `continue`, skipping the whole entry, but a falsy/absent timestamp
field only skips the `dates.append` and still appends the amount and
type. -/
def timelinePlotStep (p : String → Option Int) (acc : PlotSeries) (e : Entry) : PlotSeries :=
  match resolveDateField e with
  | none =>
      { acc with
        amounts := acc.amounts ++ [e.net_amount_btc]
        tx_types := acc.tx_types ++ [e.transaction_type] }
  | some (TimeVal.epoch n) =>
      { dates := acc.dates ++ [n]
        amounts := acc.amounts ++ [e.net_amount_btc]
        tx_types := acc.tx_types ++ [e.transaction_type] }
  | some (TimeVal.str s) =>
      match p (s.replace "Z" "+00:00") with
      | some t =>
          { dates := acc.dates ++ [t]
            amounts := acc.amounts ++ [e.net_amount_btc]
            tx_types := acc.tx_types ++ [e.transaction_type] }
      | none => acc

/-- The series built by `create_transaction_timeline_plot` over a list of
timeline entries. -/
def createTransactionTimelinePlot (p : String → Option Int) (entries : List Entry) :
    PlotSeries :=
  entries.foldl (timelinePlotStep p) { dates := [], amounts := [], tx_types := [] }

/-- Order on resolved dates with `none` playing `datetime.min`. -/
def dateLe : Option Int → Option Int → Prop
  | none, _ => True
  | some _, none => False
  | some a, some b => a ≤ b

instance : ∀ a b, Decidable (dateLe a b)
  | none, _ => .isTrue trivial
  | some _, none => .isFalse (fun h => h)
  | some a, some b => Int.decLe a b

/-- The sort key order of `sorted(timeline_data, key=get_date)`. -/
def balanceLe (p : String → Option Int) (a b : Entry) : Prop :=
  dateLe (getDate p a) (getDate p b)

instance (p : String → Option Int) : DecidableRel (balanceLe p) :=
  fun a b => inferInstanceAs (Decidable (dateLe (getDate p a) (getDate p b)))

/-- The `for tx in timeline_data` loop of `create_balance_over_time_plot`:
entries whose `get_date` is `datetime.min` are skipped entirely; the rest
contribute a date and the running `cumulative_balance`. -/
def balanceLoop (p : String → Option Int) (bal : ℚ) :
    List Entry → List Int × List ℚ
  | [] => ([], [])
  | e :: es =>
    match getDate p e with
    | none => balanceLoop p bal es
    | some d =>
      let bal2 := bal + e.net_amount_btc
      let rest := balanceLoop p bal2 es
      (d :: rest.1, bal2 :: rest.2)

/-- `create_balance_over_time_plot`: sort the entries by `get_date`
(Python's stable `sorted`), then accumulate the cumulative balance over
the entries with a valid date. Returns the `dates` and `balances` series. -/
def createBalancePlot (p : String → Option Int) (entries : List Entry) :
    List Int × List ℚ :=
  balanceLoop p 0 (List.insertionSort (balanceLe p) entries)

/-- Modelled from the spec: the sequence of prefix sums of a list — entry
`i` is the sum of the values at positions `0..i`. Used to compare the
code's running balance against the claim's wording. -/
def specPrefixSums (l : List ℚ) : List ℚ :=
  (List.range l.length).map (fun i => (l.take (i + 1)).sum)

/-! ## `analyze_address_clustering` (bitcoin_analysis.py, lines 182-244) -/

/-- Appends an element if it is not already present: used to model the
distinct-address set `tx_addresses` of one transaction as a
first-occurrence list. -/
def insertUnique (l : List String) (a : String) : List String :=
  if a ∈ l then l else l ++ [a]

/-- The distinct addresses appearing in any input or output leg of a
transaction (the `tx_addresses` set). -/
def txAddressList (tx : Transaction) : List String :=
  ((tx.vin.filterMap TxLeg.address) ++ (tx.vout.filterMap TxLeg.address)).foldl insertUnique []

/-- `address_connections[addr] += 1` with defaulting: an existing key is
bumped in place, a new key is appended (Python dict insertion order). -/
def bumpConnection (l : List (String × Nat)) (a : String) : List (String × Nat) :=
  match l with
  | [] => [(a, 1)]
  | (b, c) :: rest => if b = a then (b, c + 1) :: rest else (b, c) :: bumpConnection rest a

/-- One iteration of the transaction loop of `analyze_address_clustering`:
if the target address occurs in the transaction's distinct-address set,
every other member's connection count is bumped once. -/
def clusterStep (address : String) (conns : List (String × Nat)) (tx : Transaction) :
    List (String × Nat) :=
  let txAddrs := txAddressList tx
  if address ∈ txAddrs then
    (txAddrs.filter (fun a => a ≠ address)).foldl bumpConnection conns
  else conns

/-- The `address_connections` dict after the transaction loop of
`analyze_address_clustering`, as an insertion-ordered association list. -/
def addressConnections (address : String) (txs : List Transaction) : List (String × Nat) :=
  txs.foldl (clusterStep address) []

/-- Connection count of one counterparty (0 when absent). -/
def connectionCount (address : String) (txs : List Transaction) (a : String) : Nat :=
  ((addressConnections address txs).lookup a).getD 0

/-- The likelihood policy:
`"High" if count > 5 else "Medium" if count > 2 else "Low"`. -/
def likelihoodOf (count : Nat) : String :=
  if count > 5 then "High" else if count > 2 then "Medium" else "Low"

/-- One element of `clustering_data['cluster_analysis']`. -/
structure ClusterEntry where
  address : String
  connection_count : Nat
  likelihood : String
deriving DecidableEq, Repr

/-- Builds a `cluster_analysis` entry from one `(addr, count)` pair. -/
def mkClusterEntry (ac : String × Nat) : ClusterEntry :=
  { address := ac.1, connection_count := ac.2, likelihood := likelihoodOf ac.2 }

/-- Descending connection-count order of
`sorted(address_connections.items(), key=lambda x: x[1], reverse=True)`;
Python's `sorted` is stable, so ties keep insertion order. -/
def connGe (a b : String × Nat) : Prop := b.2 ≤ a.2

instance : DecidableRel connGe := fun a b => Nat.decLe b.2 a.2

instance : IsTotal (String × Nat) connGe := ⟨fun a b => (Nat.le_total a.2 b.2).symm⟩

instance : IsTrans (String × Nat) connGe :=
  ⟨fun _ _ _ hab hbc => Nat.le_trans hbc hab⟩

/-- The `cluster_analysis` list built by `analyze_address_clustering`:
connections sorted by descending count (stable), then mapped to entries
with the likelihood policy applied. -/
def clusterAnalysis (address : String) (txs : List Transaction) : List ClusterEntry :=
  (List.insertionSort connGe (addressConnections address txs)).map mkClusterEntry

/-! ## `analyze_top_addresses` (app.py, lines 385-458) -/

/-- The per-address accumulator of `analyze_top_addresses`
(`address_flows` defaultdict values). -/
structure FlowData where
  total_received : ℚ
  total_sent : ℚ
  transaction_count : Nat
  address : String
deriving DecidableEq, Repr

/-- The defaultdict default value. -/
def defaultFlowData : FlowData :=
  { total_received := 0, total_sent := 0, transaction_count := 0, address := "" }

/-- Defaultdict access-and-update: an absent key is created (appended, as
in Python dict insertion order) with the default value before updating. -/
def updateFlow (flows : List (String × FlowData)) (a : String) (f : FlowData → FlowData) :
    List (String × FlowData) :=
  match flows with
  | [] => [(a, f defaultFlowData)]
  | (b, d) :: rest => if b = a then (b, f d) :: rest else (b, d) :: updateFlow rest a f

/-- The input-leg branch of `analyze_top_addresses`: the source address's
`total_sent` grows by the leg value in BTC and its count by 1. -/
def flowStepVin (flows : List (String × FlowData)) (leg : TxLeg) :
    List (String × FlowData) :=
  match leg.address with
  | none => flows
  | some a =>
      updateFlow flows a (fun d =>
        { d with
          total_sent := d.total_sent + satoshiToBtc leg.value
          transaction_count := d.transaction_count + 1
          address := a })

/-- The output-leg branch of `analyze_top_addresses`. -/
def flowStepVout (flows : List (String × FlowData)) (leg : TxLeg) :
    List (String × FlowData) :=
  match leg.address with
  | none => flows
  | some a =>
      updateFlow flows a (fun d =>
        { d with
          total_received := d.total_received + satoshiToBtc leg.value
          transaction_count := d.transaction_count + 1
          address := a })

/-- Folds one transaction's detail legs into the accumulator: all input
legs first, then all output legs. -/
def flowStepTx (flows : List (String × FlowData)) (tx : Transaction) :
    List (String × FlowData) :=
  tx.vout.foldl flowStepVout (tx.vin.foldl flowStepVin flows)

/-- The `address_flows` accumulator of `analyze_top_addresses` over all
transactions, keyed in first-touch order. -/
def addressFlows (txs : List Transaction) : List (String × FlowData) :=
  txs.foldl flowStepTx []

/-- Descending `total_sent` order (`sorted(..., reverse=True)`, stable). -/
def sentGe (a b : String × FlowData) : Prop := b.2.total_sent ≤ a.2.total_sent

instance : DecidableRel sentGe :=
  fun a b => inferInstanceAs (Decidable (b.2.total_sent ≤ a.2.total_sent))

instance : IsTotal (String × FlowData) sentGe :=
  ⟨fun a b => (le_total a.2.total_sent b.2.total_sent).symm⟩

instance : IsTrans (String × FlowData) sentGe :=
  ⟨fun _ _ _ hab hbc => le_trans hbc hab⟩

/-- Descending `total_received` order. -/
def recvGe (a b : String × FlowData) : Prop := b.2.total_received ≤ a.2.total_received

instance : DecidableRel recvGe :=
  fun a b => inferInstanceAs (Decidable (b.2.total_received ≤ a.2.total_received))

instance : IsTotal (String × FlowData) recvGe :=
  ⟨fun a b => (le_total a.2.total_received b.2.total_received).symm⟩

instance : IsTrans (String × FlowData) recvGe :=
  ⟨fun _ _ _ hab hbc => le_trans hbc hab⟩

/-- The comprehension `[(addr, d) for ... if d['total_sent'] > 0]`. -/
def filteredSenders (txs : List Transaction) : List (String × FlowData) :=
  (addressFlows txs).filter (fun x => x.2.total_sent > 0)

/-- The sorted sender list, before the `[:10]` truncation. -/
def sortedSenders (txs : List Transaction) : List (String × FlowData) :=
  List.insertionSort sentGe (filteredSenders txs)

/-- `top_senders`: the 10 first entries of the sorted sender list. -/
def topSenders (txs : List Transaction) : List (String × FlowData) :=
  (sortedSenders txs).take 10

/-- The comprehension `[(addr, d) for ... if d['total_received'] > 0]`. -/
def filteredReceivers (txs : List Transaction) : List (String × FlowData) :=
  (addressFlows txs).filter (fun x => x.2.total_received > 0)

/-- The sorted receiver list, before the `[:10]` truncation. -/
def sortedReceivers (txs : List Transaction) : List (String × FlowData) :=
  List.insertionSort recvGe (filteredReceivers txs)

/-- `top_receivers`: the 10 first entries of the sorted receiver list. -/
def topReceivers (txs : List Transaction) : List (String × FlowData) :=
  (sortedReceivers txs).take 10

/-! ## Bubble projections (bubble_map_visualizer.py) -/

/-- The per-address flow statistics built by `analyze_transaction_flow`
(first/last-seen timestamps kept as optional epochs). -/
structure FlowStats where
  total_received : ℚ
  total_sent : ℚ
  transaction_count : Nat
  first_seen : Option Int
  last_seen : Option Int
deriving DecidableEq, Repr

/-- The dict returned by `create_bubble_map_data` (lines 133-175): the
parallel per-address series consumed by the bubble plot. -/
structure BubbleData where
  addresses : List String
  total_flows : List ℚ
  net_flows : List ℚ
  transaction_counts : List Nat
  main_address : String
deriving DecidableEq, Repr

/-- `create_bubble_map_data(address_flows, main_address)`: one entry per
address with `total_flow = received + sent` and
`net_flow = received - sent`. -/
def createBubbleMapData (flows : List (String × FlowStats)) (main : String) : BubbleData :=
  { addresses := flows.map Prod.fst
    total_flows := flows.map (fun x => x.2.total_received + x.2.total_sent)
    net_flows := flows.map (fun x => x.2.total_received - x.2.total_sent)
    transaction_counts := flows.map (fun x => x.2.transaction_count)
    main_address := main }

/-- The `bubble_sizes` list of `create_bubble_map_plot` (lines 186-192):
`base_size = max(15, count * 3)`, `flow_factor = min(2.0, flow / 1000)`,
`size = base_size * (1 + flow_factor)`. -/
def bubbleSizes (bd : BubbleData) : List ℚ :=
  (bd.transaction_counts.zip bd.total_flows).map (fun ct =>
    ((max 15 (ct.1 * 3) : Nat) : ℚ) * (1 + min 2 (ct.2 / 1000)))

/-- The `node_size` list of `create_flow_network_plot` (lines 383-386):
per flow entry, `base_size = max(15, count * 4)` scaled by
`1 + min(2.0, total_flow / 1000)`. -/
def networkNodeSizes (flows : List (String × FlowStats)) : List ℚ :=
  flows.map (fun x =>
    ((max 15 (x.2.transaction_count * 4) : Nat) : ℚ) *
      (1 + min 2 ((x.2.total_received + x.2.total_sent) / 1000)))

/-! ## `create_network_data` (bitcoin_analysis.py, lines 246-295) -/

/-- The part of `clustering_data` consumed by `create_network_data`. -/
structure ClusteringData where
  related_addresses : List String
  connection_details : List (String × Nat)
deriving DecidableEq, Repr

/-- A node of the network graph: the main-address node carries the
transaction count, a related node its connection count. -/
inductive NetworkNode where
  | main (id : String) (transaction_count : Nat)
  | related (id : String) (connection_count : Nat)
deriving DecidableEq, Repr

/-- An edge of the network graph. -/
structure NetworkEdge where
  source : String
  target : String
  weight : Nat
deriving DecidableEq, Repr

/-- The `graph_metrics` object. -/
structure GraphMetrics where
  total_nodes : Nat
  total_edges : Nat
  related_addresses_count : Nat
deriving DecidableEq, Repr

/-- The `network_data` result. -/
structure NetworkData where
  main_address : String
  nodes : List NetworkNode
  edges : List NetworkEdge
  graph_metrics : GraphMetrics
deriving DecidableEq, Repr

/-- `create_network_data(address, clustering_data, transactions)`: the
main node, up to 20 related nodes (each with
`connection_details.get(addr, 1)`), one edge per related node, and the
metrics computed from the built lists. -/
def createNetworkData (address : String) (cd : ClusteringData) (txs : List Transaction) :
    NetworkData :=
  let rel := cd.related_addresses.take 20
  let relNodes := rel.map (fun a => NetworkNode.related a ((cd.connection_details.lookup a).getD 1))
  let edges := rel.map (fun a =>
    { source := address, target := a, weight := (cd.connection_details.lookup a).getD 1 : NetworkEdge })
  let nodes := NetworkNode.main address txs.length :: relNodes
  { main_address := address
    nodes := nodes
    edges := edges
    graph_metrics :=
      { total_nodes := nodes.length
        total_edges := edges.length
        related_addresses_count := rel.length } }

/-! ## Helper lemmas -/

/-- The likelihood policy, characterized by the thresholds. -/
theorem likelihoodOf_spec (c : Nat) :
    (likelihoodOf c = "High" ↔ 5 < c) ∧
    (likelihoodOf c = "Medium" ↔ (2 < c ∧ c ≤ 5)) ∧
    (likelihoodOf c = "Low" ↔ c ≤ 2) := by
  unfold likelihoodOf
  split_ifs with h1 h2 <;> refine ⟨?_, ?_, ?_⟩ <;> simp_all <;> omega

/-- Every `cluster_analysis` entry carries the likelihood of its own
connection count. -/
theorem likelihood_of_mem_clusterAnalysis {address : String} {txs : List Transaction}
    {e : ClusterEntry} (he : e ∈ clusterAnalysis address txs) :
    e.likelihood = likelihoodOf e.connection_count := by
  obtain ⟨ac, -, rfl⟩ := List.mem_map.1 he
  rfl

end BitcoinAnalysis

namespace BitcoinAnalysis

/-! ## Claim theorems -/

/-- C4: for every counterparty in the clustering result, likelihood is
High exactly when the connection count exceeds 5, Medium exactly when it
exceeds 2 but not 5, and Low otherwise; a count of 6 yields High, 5
yields Medium, 2 yields Low. -/
theorem claim_likelihood_thresholds :
    (∀ (address : String) (txs : List Transaction) (e : ClusterEntry),
       e ∈ clusterAnalysis address txs →
         ((e.likelihood = "High" ↔ 5 < e.connection_count) ∧
          (e.likelihood = "Medium" ↔ (2 < e.connection_count ∧ e.connection_count ≤ 5)) ∧
          (e.likelihood = "Low" ↔ e.connection_count ≤ 2))) ∧
    likelihoodOf 6 = "High" ∧ likelihoodOf 5 = "Medium" ∧ likelihoodOf 2 = "Low" := by
  refine ⟨fun address txs e he => ?_, by decide, by decide, by decide⟩
  rw [likelihood_of_mem_clusterAnalysis he]
  exact likelihoodOf_spec e.connection_count

/-- Witness for C4 at a concrete transaction set: the single-connection
counterparty `B` gets likelihood `Low`. -/
theorem claim_likelihood_thresholds_witness :
    (⟨"B", 1, "Low"⟩ : ClusterEntry).likelihood = "Low" := by
  have h := claim_likelihood_thresholds.1 "T"
    [{ txid := "t1", status := { confirmed := true, block_time := 1 },
       vin := [{ address := some "T", value := 10 }],
       vout := [{ address := some "B", value := 10 }], fee := 0 }]
    ⟨"B", 1, "Low"⟩ (by decide)
  exact h.2.2.mpr (by decide)

/-- The `transaction_type` field of a processed transaction, unfolded. -/
theorem processTx_type (address : String) (tx : Transaction) :
    (processTx address tx).transaction_type
      = if txNetSatoshis address tx > 0 then "Received" else "Sent" := rfl

/-- The `net_amount_satoshis` field of a processed transaction, unfolded. -/
theorem processTx_net (address : String) (tx : Transaction) :
    (processTx address tx).net_amount_satoshis = txNetSatoshis address tx := rfl

/-- The `type` field of a timeline point, unfolded. -/
theorem mkTimelineTxData_type (address : String) (tx : Transaction) :
    (mkTimelineTxData address tx).type
      = if satoshiToBtc (txNetSatoshis address tx) > 0 then "Received" else "Sent" := rfl

/-- The `net_amount_btc` field of a timeline point, unfolded. -/
theorem mkTimelineTxData_netBtc (address : String) (tx : Transaction) :
    (mkTimelineTxData address tx).net_amount_btc = satoshiToBtc (txNetSatoshis address tx) := rfl

/-- C9: for every processed transaction and timeline point, the type is
`Received` exactly when the net amount is strictly positive and `Sent`
otherwise; a net amount of exactly zero is classified `Sent`. -/
theorem claim_type_received_iff_positive :
    (∀ (txs : List Transaction) (address : String) (limit : Nat) (e : ProcessedTx),
       e ∈ processTransactions txs address limit →
         ((e.transaction_type = "Received" ↔ 0 < e.net_amount_satoshis) ∧
          (e.transaction_type = "Sent" ↔ e.net_amount_satoshis ≤ 0) ∧
          (e.net_amount_satoshis = 0 → e.transaction_type = "Sent"))) ∧
    (∀ (txs : List Transaction) (address : String) (e : TimelineTxData),
       e ∈ (createTimelineData txs address).transactions →
         ((e.type = "Received" ↔ 0 < e.net_amount_btc) ∧
          (e.type = "Sent" ↔ e.net_amount_btc ≤ 0) ∧
          (e.net_amount_btc = 0 → e.type = "Sent"))) := by
  constructor
  · intro txs address limit e he
    simp only [processTransactions] at he
    obtain ⟨tx, -, rfl⟩ := List.mem_map.1 he
    rw [processTx_type, processTx_net]
    split_ifs with h
    · refine ⟨by simp [h], ?_, fun h0 => absurd h0 (by omega)⟩
      constructor
      · intro hs
        exact absurd hs (by decide)
      · intro hle
        exact absurd h (not_lt.mpr hle)
    · exact ⟨by simp [h], ⟨fun _ => not_lt.mp h, fun _ => rfl⟩, fun _ => rfl⟩
  · intro txs address e he
    simp only [createTimelineData] at he
    rw [List.mem_insertionSort] at he
    obtain ⟨tx, -, rfl⟩ := List.mem_map.1 he
    rw [mkTimelineTxData_type, mkTimelineTxData_netBtc]
    split_ifs with h
    · refine ⟨by simp [h], ?_, fun h0 => absurd h0 h.ne'⟩
      constructor
      · intro hs
        exact absurd hs (by decide)
      · intro hle
        exact absurd h (not_lt.mpr hle)
    · exact ⟨by simp [h], ⟨fun _ => not_lt.mp h, fun _ => rfl⟩, fun _ => rfl⟩

/-- Witness for C9: a confirmed transaction with no legs touching the
target nets exactly zero and is typed `Sent` on both paths. -/
theorem claim_type_received_iff_positive_witness :
    (processTx "A" { txid := "t0", status := { confirmed := true, block_time := 1 },
                     vin := [], vout := [], fee := 0 }).transaction_type = "Sent" := by
  have h := claim_type_received_iff_positive.1
    [{ txid := "t0", status := { confirmed := true, block_time := 1 },
       vin := [], vout := [], fee := 0 }] "A" 10
    (processTx "A" { txid := "t0", status := { confirmed := true, block_time := 1 },
                     vin := [], vout := [], fee := 0 })
    (by simp [processTransactions])
  exact h.2.2 (by decide)

/-- C8: every projected node's bubble size is
`max(15, transactionCount * perTxFactor) * (1 + min(2.0, totalFlow / 1000))`
with `perTxFactor = 3` in the bubble-map projection and `4` in the network
projection, where `totalFlow = totalReceived + totalSent`. -/
theorem claim_bubble_size_formula (flows : List (String × FlowStats)) (main : String) :
    bubbleSizes (createBubbleMapData flows main)
      = flows.map (fun x =>
          ((max 15 (x.2.transaction_count * 3) : Nat) : ℚ) *
            (1 + min 2 ((x.2.total_received + x.2.total_sent) / 1000))) ∧
    networkNodeSizes flows
      = flows.map (fun x =>
          ((max 15 (x.2.transaction_count * 4) : Nat) : ℚ) *
            (1 + min 2 ((x.2.total_received + x.2.total_sent) / 1000))) := by
  constructor
  · show ((flows.map (fun x => x.2.transaction_count)).zip
        (flows.map (fun x => x.2.total_received + x.2.total_sent))).map _ = _
    rw [List.zip_map', List.map_map]
    rfl
  · rfl

/-- C10: the constructed network graph is a star centered on the main
address: the node list is the main node followed by one related node per
edge (at most 20, so at most 21 nodes), every edge goes from the main
address to that node with weight equal to its connection count, and the
reported metrics equal the built list lengths, with
`total_edges + 1 = total_nodes`. -/
theorem claim_network_star_shape (address : String) (cd : ClusteringData)
    (txs : List Transaction) :
    (createNetworkData address cd txs).nodes
        = NetworkNode.main address txs.length ::
            (createNetworkData address cd txs).edges.map
              (fun e => NetworkNode.related e.target e.weight) ∧
    (∀ e ∈ (createNetworkData address cd txs).edges, e.source = address) ∧
    (createNetworkData address cd txs).nodes.length ≤ 21 ∧
    (createNetworkData address cd txs).graph_metrics.total_nodes
        = (createNetworkData address cd txs).nodes.length ∧
    (createNetworkData address cd txs).graph_metrics.total_edges
        = (createNetworkData address cd txs).edges.length ∧
    (createNetworkData address cd txs).graph_metrics.total_edges + 1
        = (createNetworkData address cd txs).graph_metrics.total_nodes := by
  refine ⟨?_, ?_, ?_, rfl, rfl, ?_⟩
  · simp only [createNetworkData, List.map_map]
    rfl
  · intro e he
    simp only [createNetworkData] at he
    obtain ⟨a, -, rfl⟩ := List.mem_map.1 he
    rfl
  · simp [createNetworkData]
  · simp [createNetworkData]

/-- Splitting a sum: the positive parts minus the absolute values of the
non-positive parts give back the plain sum. -/
theorem sum_pos_sub_sum_nonpos_abs {α : Type} (f : α → ℚ) (l : List α) :
    (l.map (fun a => if f a > 0 then f a else 0)).sum
      - (l.map (fun a => if f a > 0 then 0 else |f a|)).sum = (l.map f).sum := by
  induction l with
  | nil => simp
  | cons q l ih =>
    simp only [List.map_cons, List.sum_cons]
    by_cases h : f q > 0
    · simp only [if_pos h]
      linarith [ih]
    · simp only [if_neg h, abs_of_nonpos (le_of_not_lt h)]
      linarith [ih]

/-- C1: `totalReceived - totalSent` accumulated by `create_timeline_data`
equals the sum of the per-transaction net amounts (output value paid to
the target minus input value drawn from the target) over all confirmed
timeline points. -/
theorem claim_timeline_totals_net_sum (txs : List Transaction) (address : String) :
    (createTimelineData txs address).summary_stats.total_received_btc
        - (createTimelineData txs address).summary_stats.total_sent_btc
      = (((createTimelineData txs address).transactions).map
          (fun p => p.net_amount_btc)).sum ∧
    (createTimelineData txs address).summary_stats.total_received_btc
        - (createTimelineData txs address).summary_stats.total_sent_btc
      = ((txs.filter (fun tx => tx.status.confirmed)).map
          (fun tx => satoshiToBtc ((txAmountIn address tx : Int)
            - (txAmountOut address tx : Int)))).sum := by
  have hperm :
      (((createTimelineData txs address).transactions).map (fun p => p.net_amount_btc)).sum
        = (((txs.filter (fun tx => tx.status.confirmed)).map
            (mkTimelineTxData address)).map (fun p => p.net_amount_btc)).sum :=
    List.Perm.sum_eq (List.Perm.map _ (List.perm_insertionSort tsLe _))
  have hsplit :
      (createTimelineData txs address).summary_stats.total_received_btc
          - (createTimelineData txs address).summary_stats.total_sent_btc
        = (((txs.filter (fun tx => tx.status.confirmed)).map
            (mkTimelineTxData address)).map (fun p => p.net_amount_btc)).sum := by
    exact sum_pos_sub_sum_nonpos_abs (fun p => p.net_amount_btc)
      ((txs.filter (fun tx => tx.status.confirmed)).map (mkTimelineTxData address))
  refine ⟨hsplit.trans hperm.symm, hsplit.trans ?_⟩
  rw [List.map_map]
  rfl

/-- Looking up after a bump: the bumped key gains exactly 1, all other
keys are unchanged. -/
theorem getD_lookup_bumpConnection (l : List (String × Nat)) (a x : String) :
    ((bumpConnection l a).lookup x).getD 0
      = ((l.lookup x).getD 0) + (if x = a then 1 else 0) := by
  induction l with
  | nil =>
    by_cases h : x = a
    · subst h
      simp [bumpConnection, List.lookup]
    · have hb : (x == a) = false := beq_eq_false_iff_ne.mpr h
      simp [bumpConnection, List.lookup, hb, h]
  | cons bd rest ih =>
    obtain ⟨b, c⟩ := bd
    by_cases hba : b = a
    · subst hba
      by_cases hxb : x = b
      · subst hxb
        simp [bumpConnection, List.lookup]
      · have hb : (x == b) = false := beq_eq_false_iff_ne.mpr hxb
        simp [bumpConnection, List.lookup, hb, hxb]
    · simp only [bumpConnection, if_neg hba]
      by_cases hxb : x = b
      · subst hxb
        simp [List.lookup, hba]
      · have hb : (x == b) = false := beq_eq_false_iff_ne.mpr hxb
        simp [List.lookup, hb, ih]

/-- Folding bumps over a duplicate-free list of addresses adds exactly 1
to each member's count and leaves the others unchanged. -/
theorem getD_foldl_bump (L : List String) (conns : List (String × Nat)) (x : String)
    (h : L.Nodup) :
    (((L.foldl bumpConnection conns).lookup x).getD 0)
      = ((conns.lookup x).getD 0) + (if x ∈ L then 1 else 0) := by
  induction L generalizing conns with
  | nil => simp
  | cons b L ih =>
    rw [List.foldl_cons, ih (bumpConnection conns b) (List.Nodup.of_cons h),
      getD_lookup_bumpConnection]
    by_cases hxb : x = b
    · subst hxb
      have hnotin : x ∉ L := (List.nodup_cons.1 h).1
      simp [hnotin]
    · simp [hxb, List.mem_cons]

/-- Membership in the first-occurrence accumulation of a list. -/
theorem mem_foldl_insertUnique (l : List String) (acc : List String) (x : String) :
    x ∈ l.foldl insertUnique acc ↔ x ∈ acc ∨ x ∈ l := by
  induction l generalizing acc with
  | nil => simp
  | cons a l ih =>
    rw [List.foldl_cons, ih]
    unfold insertUnique
    by_cases h : a ∈ acc
    · rw [if_pos h]
      simp only [List.mem_cons]
      constructor
      · tauto
      · rintro (hx | rfl | hx)
        exacts [Or.inl hx, Or.inl h, Or.inr hx]
    · rw [if_neg h]
      simp only [List.mem_append, List.mem_singleton, List.mem_cons]
      tauto

/-- The first-occurrence accumulation of a list is duplicate-free. -/
theorem nodup_foldl_insertUnique (l : List String) (acc : List String) (h : acc.Nodup) :
    (l.foldl insertUnique acc).Nodup := by
  induction l generalizing acc with
  | nil => exact h
  | cons a l ih =>
    rw [List.foldl_cons]
    apply ih
    unfold insertUnique
    by_cases ha : a ∈ acc
    · rwa [if_pos ha]
    · rw [if_neg ha]
      simp [List.nodup_append, h, ha]

/-- The distinct-address set of one transaction is duplicate-free. -/
theorem txAddressList_nodup (tx : Transaction) : (txAddressList tx).Nodup :=
  nodup_foldl_insertUnique _ _ List.nodup_nil

/-- Appending one transaction to the clustering input performs exactly one
`clusterStep` on the accumulated connections. -/
theorem addressConnections_append_single (address : String) (txs : List Transaction)
    (tx : Transaction) :
    addressConnections address (txs ++ [tx])
      = clusterStep address (addressConnections address txs) tx := by
  unfold addressConnections
  rw [List.foldl_append]
  rfl

/-- C3: processing one more transaction increments the connection count of
an address by exactly 1 precisely when the target and that address both
occur in the transaction's distinct-address set (once per transaction, not
per leg); in the example with inputs from `{A, B}` and output to `{C}` and
target `A`, the connections are exactly `A-B` with count 1 and `A-C` with
count 1, and no `B-C` edge. -/
theorem claim_cluster_increment_once_per_tx :
    (∀ (address : String) (txs : List Transaction) (tx : Transaction) (a : String),
       connectionCount address (txs ++ [tx]) a
         = connectionCount address txs a
           + (if address ∈ txAddressList tx ∧ a ∈ txAddressList tx ∧ a ≠ address
              then 1 else 0)) ∧
    addressConnections "A"
        [{ txid := "t1", status := { confirmed := true, block_time := 1 },
           vin := [{ address := some "A", value := 30 }, { address := some "B", value := 20 }],
           vout := [{ address := some "C", value := 45 }], fee := 5 }]
      = [("B", 1), ("C", 1)] := by
  constructor
  · intro address txs tx a
    unfold connectionCount
    rw [addressConnections_append_single]
    unfold clusterStep
    by_cases haddr : address ∈ txAddressList tx
    · rw [if_pos haddr,
        getD_foldl_bump _ _ _ ((txAddressList_nodup tx).filter _)]
      congr 1
      simp [List.mem_filter, haddr]
    · rw [if_neg haddr]
      simp [haddr]
  · decide

/-- C5 counterexample: two counterparties with equal connection counts
(first `B`, then `A`, in transaction order) come out of
`analyze_address_clustering` as `[B, A]` — equal-count entries in
descending, not ascending, lexical address order, refuting the claimed
lexical tie-break. -/
theorem claim_cluster_sorted_counterexample :
    clusterAnalysis "T"
        [{ txid := "t1", status := { confirmed := true, block_time := 1 },
           vin := [{ address := some "T", value := 10 }],
           vout := [{ address := some "B", value := 10 }], fee := 0 },
         { txid := "t2", status := { confirmed := true, block_time := 2 },
           vin := [{ address := some "T", value := 10 }],
           vout := [{ address := some "A", value := 10 }], fee := 0 }]
      = [⟨"B", 1, "Low"⟩, ⟨"A", 1, "Low"⟩] ∧ "A" < "B" := by
  constructor
  · decide
  · rw [String.lt_iff_toList_lt]
    decide

/-- C5 amended: the `cluster_analysis` entries are sorted in descending
order of connection count, and entries with equal connection count keep
the order in which their addresses were first recorded in the connection
accumulator (Python's `sorted` is stable), not ascending lexical order. -/
theorem claim_cluster_sorted_descending_stable (address : String) (txs : List Transaction) :
    List.Pairwise (fun x y : ClusterEntry => y.connection_count ≤ x.connection_count)
      (clusterAnalysis address txs) ∧
    ∀ a b : String × Nat,
      List.Sublist [a, b] (addressConnections address txs) → a.2 = b.2 →
        List.Sublist [mkClusterEntry a, mkClusterEntry b] (clusterAnalysis address txs) := by
  constructor
  · exact List.Pairwise.map mkClusterEntry (fun a b h => h)
      (List.sorted_insertionSort connGe (addressConnections address txs))
  · intro a b hsub heq
    have h := List.pair_sublist_insertionSort (r := connGe) (le_of_eq heq.symm) hsub
    simpa using List.Sublist.map mkClusterEntry h

/-- Witness for C5 (amended) at a concrete input: the two equal-count
entries stay in first-recorded order in the sorted output. -/
theorem claim_cluster_sorted_descending_stable_witness :
    List.Sublist [(⟨"B", 1, "Low"⟩ : ClusterEntry), ⟨"A", 1, "Low"⟩]
      (clusterAnalysis "T"
        [{ txid := "t1", status := { confirmed := true, block_time := 1 },
           vin := [{ address := some "T", value := 10 }],
           vout := [{ address := some "B", value := 10 }], fee := 0 },
         { txid := "t2", status := { confirmed := true, block_time := 2 },
           vin := [{ address := some "T", value := 10 }],
           vout := [{ address := some "A", value := 10 }], fee := 0 }]) := by
  have h := (claim_cluster_sorted_descending_stable "T"
    [{ txid := "t1", status := { confirmed := true, block_time := 1 },
       vin := [{ address := some "T", value := 10 }],
       vout := [{ address := some "B", value := 10 }], fee := 0 },
     { txid := "t2", status := { confirmed := true, block_time := 2 },
       vin := [{ address := some "T", value := 10 }],
       vout := [{ address := some "A", value := 10 }], fee := 0 }]).2
    ("B", 1) ("A", 1) (by decide) rfl
  exact h

/-- C6 counterexample: two senders with equal `total_sent` (first touched
`B`, then `A`) are returned by `analyze_top_addresses` as `[B, A]` with
equal keys — so the list is neither strictly descending nor
lexically-ordered on ties, refuting the claim as stated. -/
theorem claim_rank_order_counterexample :
    (topSenders
        [{ txid := "t6", status := { confirmed := true, block_time := 1 },
           vin := [{ address := some "B", value := 100000000 },
                   { address := some "A", value := 100000000 }],
           vout := [], fee := 0 }]).map Prod.fst = ["B", "A"] ∧
    (topSenders
        [{ txid := "t6", status := { confirmed := true, block_time := 1 },
           vin := [{ address := some "B", value := 100000000 },
                   { address := some "A", value := 100000000 }],
           vout := [], fee := 0 }]).map (fun x => x.2.total_sent) = [1, 1] ∧
    "A" < "B" := by
  have h : addressFlows
      [{ txid := "t6", status := { confirmed := true, block_time := 1 },
         vin := [{ address := some "B", value := 100000000 },
                 { address := some "A", value := 100000000 }],
         vout := [], fee := 0 }]
      = [("B", ⟨0, 1, 1, "B"⟩), ("A", ⟨0, 1, 1, "A"⟩)] := by
    norm_num [addressFlows, flowStepTx, flowStepVin, flowStepVout, updateFlow,
      defaultFlowData, satoshiToBtc]
    decide
  refine ⟨?_, ?_, ?_⟩
  · unfold topSenders sortedSenders filteredSenders
    rw [h]
    decide
  · unfold topSenders sortedSenders filteredSenders
    rw [h]
    decide
  · rw [String.lt_iff_toList_lt]
    decide

/-- C6 amended: the top-sender and top-receiver lists each have at most 10
entries, every entry's sort key is strictly positive, the lists are
non-increasing (descending with ties allowed, not strictly descending) by
that key, and entries with equal keys keep the order in which their
addresses were first touched by the accumulator (Python's stable sort),
not ascending lexical order. -/
theorem claim_rank_bounded_descending (txs : List Transaction) :
    (topSenders txs).length ≤ 10 ∧
    (topReceivers txs).length ≤ 10 ∧
    (∀ x ∈ topSenders txs, 0 < x.2.total_sent) ∧
    (∀ x ∈ topReceivers txs, 0 < x.2.total_received) ∧
    List.Pairwise sentGe (topSenders txs) ∧
    List.Pairwise recvGe (topReceivers txs) ∧
    (∀ a b : String × FlowData,
       List.Sublist [a, b] (filteredSenders txs) → a.2.total_sent = b.2.total_sent →
         List.Sublist [a, b] (sortedSenders txs)) ∧
    (∀ a b : String × FlowData,
       List.Sublist [a, b] (filteredReceivers txs) → a.2.total_received = b.2.total_received →
         List.Sublist [a, b] (sortedReceivers txs)) := by
  refine ⟨List.length_take_le 10 _, List.length_take_le 10 _, ?_, ?_, ?_, ?_, ?_, ?_⟩
  · intro x hx
    have hmem := (List.mem_insertionSort sentGe).1 (List.mem_of_mem_take hx)
    have hf := List.mem_filter.1 hmem
    simpa using hf.2
  · intro x hx
    have hmem := (List.mem_insertionSort recvGe).1 (List.mem_of_mem_take hx)
    have hf := List.mem_filter.1 hmem
    simpa using hf.2
  · exact (List.sorted_insertionSort sentGe _).sublist (List.take_sublist _ _)
  · exact (List.sorted_insertionSort recvGe _).sublist (List.take_sublist _ _)
  · intro a b hsub heq
    exact List.pair_sublist_insertionSort (le_of_eq heq.symm) hsub
  · intro a b hsub heq
    exact List.pair_sublist_insertionSort (le_of_eq heq.symm) hsub

/-- Witness for C6 (amended) at a concrete input: the two equal-key
senders stay in first-touched order in the sorted sender list. -/
theorem claim_rank_bounded_descending_witness :
    List.Sublist
      [(("B", ⟨0, 1, 1, "B"⟩) : String × FlowData), ("A", ⟨0, 1, 1, "A"⟩)]
      (sortedSenders
        [{ txid := "t6", status := { confirmed := true, block_time := 1 },
           vin := [{ address := some "B", value := 100000000 },
                   { address := some "A", value := 100000000 }],
           vout := [], fee := 0 }]) := by
  have h : addressFlows
      [{ txid := "t6", status := { confirmed := true, block_time := 1 },
         vin := [{ address := some "B", value := 100000000 },
                 { address := some "A", value := 100000000 }],
         vout := [], fee := 0 }]
      = [("B", ⟨0, 1, 1, "B"⟩), ("A", ⟨0, 1, 1, "A"⟩)] := by
    norm_num [addressFlows, flowStepTx, flowStepVin, flowStepVout, updateFlow,
      defaultFlowData, satoshiToBtc]
    decide
  have hsub : List.Sublist
      [(("B", ⟨0, 1, 1, "B"⟩) : String × FlowData), ("A", ⟨0, 1, 1, "A"⟩)]
      (filteredSenders
        [{ txid := "t6", status := { confirmed := true, block_time := 1 },
           vin := [{ address := some "B", value := 100000000 },
                   { address := some "A", value := 100000000 }],
           vout := [], fee := 0 }]) := by
    unfold filteredSenders
    rw [h]
    decide
  exact (claim_rank_bounded_descending _).2.2.2.2.2.2.1 _ _ hsub rfl

/-- The balance series produced by the balance-plot loop over entries that
all carry a resolvable date: entry `i` holds the start balance plus the
sum of the first `i + 1` net amounts. -/
theorem balanceLoop_snd (p : String → Option Int) (es : List Entry) (b : ℚ)
    (h : ∀ e ∈ es, getDate p e ≠ none) :
    (balanceLoop p b es).2
      = (List.range es.length).map
          (fun i => b + ((es.map (fun e => e.net_amount_btc)).take (i + 1)).sum) := by
  induction es generalizing b with
  | nil => simp [balanceLoop]
  | cons e es ih =>
    obtain ⟨d, hd⟩ := Option.ne_none_iff_exists'.1 (h e (List.mem_cons_self e es))
    simp only [balanceLoop, hd]
    rw [ih (b + e.net_amount_btc) (fun x hx => h x (List.mem_cons_of_mem e hx))]
    rw [List.length_cons, List.range_succ_eq_map]
    simp [List.map_map, Function.comp, List.take_succ_cons, add_assoc]

/-- C2: for every chronologically ordered sequence of entries that all
carry resolvable timestamps, the running balance series of
`create_balance_over_time_plot` is the sequence of prefix sums of the net
amounts (each point's balance sums all net amounts up to and including
it). -/
theorem claim_running_balance_prefix_sum (p : String → Option Int) (entries : List Entry)
    (hvalid : ∀ e ∈ entries, getDate p e ≠ none)
    (hsorted : List.Pairwise (balanceLe p) entries) :
    (createBalancePlot p entries).2
      = specPrefixSums (entries.map (fun e => e.net_amount_btc)) := by
  unfold createBalancePlot specPrefixSums
  rw [List.Sorted.insertionSort_eq hsorted, balanceLoop_snd p entries 0 hvalid]
  simp

/-- Witness for C2: three confirmed transactions netting +5, -2, +1 BTC in
chronological order give running balances `[5, 3, 4]`, and the timeline
builder reports `totalReceived = 6`, `totalSent = 2` on them. -/
theorem claim_running_balance_prefix_sum_witness :
    (createBalancePlot (fun _ => none)
        [{ date := none, formatted_date := none, timestamp := some (TimeVal.epoch 1),
           net_amount_btc := 5, transaction_type := "Received" },
         { date := none, formatted_date := none, timestamp := some (TimeVal.epoch 2),
           net_amount_btc := -2, transaction_type := "Sent" },
         { date := none, formatted_date := none, timestamp := some (TimeVal.epoch 3),
           net_amount_btc := 1, transaction_type := "Received" }]).2 = [5, 3, 4] ∧
    (createTimelineData
        [{ txid := "t1", status := { confirmed := true, block_time := 1 },
           vin := [], vout := [{ address := some "A", value := 500000000 }], fee := 0 },
         { txid := "t2", status := { confirmed := true, block_time := 2 },
           vin := [{ address := some "A", value := 200000000 }], vout := [], fee := 0 },
         { txid := "t3", status := { confirmed := true, block_time := 3 },
           vin := [], vout := [{ address := some "A", value := 100000000 }], fee := 0 }]
        "A").summary_stats.total_received_btc = 6 ∧
    (createTimelineData
        [{ txid := "t1", status := { confirmed := true, block_time := 1 },
           vin := [], vout := [{ address := some "A", value := 500000000 }], fee := 0 },
         { txid := "t2", status := { confirmed := true, block_time := 2 },
           vin := [{ address := some "A", value := 200000000 }], vout := [], fee := 0 },
         { txid := "t3", status := { confirmed := true, block_time := 3 },
           vin := [], vout := [{ address := some "A", value := 100000000 }], fee := 0 }]
        "A").summary_stats.total_sent_btc = 2 := by
  refine ⟨?_, ?_, ?_⟩
  · have h := claim_running_balance_prefix_sum (fun _ => none)
      [{ date := none, formatted_date := none, timestamp := some (TimeVal.epoch 1),
         net_amount_btc := 5, transaction_type := "Received" },
       { date := none, formatted_date := none, timestamp := some (TimeVal.epoch 2),
         net_amount_btc := -2, transaction_type := "Sent" },
       { date := none, formatted_date := none, timestamp := some (TimeVal.epoch 3),
         net_amount_btc := 1, transaction_type := "Received" }]
      (by decide) (by decide)
    rw [h]
    norm_num [specPrefixSums, List.range_succ]
  · norm_num [createTimelineData, mkTimelineTxData, txNetSatoshis, txAmountIn,
      txAmountOut, satoshiToBtc]
  · norm_num [createTimelineData, mkTimelineTxData, txNetSatoshis, txAmountIn,
      txAmountOut, satoshiToBtc]

/-- C7 (code-bug evaluation): in `create_transaction_timeline_plot` an
entry whose timestamp field is present but unparseable is dropped
entirely (the `except` branch runs `continue`), but an entry carrying no
timestamp field at all still appends its amount and type while appending
no date, leaving the plotted series misaligned instead of dropping the
entry. -/
theorem claim_timeline_plot_untimed_entry_bug :
    createTransactionTimelinePlot (fun _ => none)
        [{ date := none, formatted_date := some (TimeVal.str "not-a-date"),
           timestamp := none, net_amount_btc := 3, transaction_type := "Sent" }]
      = { dates := [], amounts := [], tx_types := [] } ∧
    createTransactionTimelinePlot (fun _ => none)
        [{ date := none, formatted_date := none, timestamp := none,
           net_amount_btc := 7, transaction_type := "Received" }]
      = { dates := [], amounts := [7], tx_types := ["Received"] } := by
  exact ⟨rfl, rfl⟩

/-- Witness for C10 at a concrete clustering result: the single edge of a
one-counterparty graph has the main address as its source. -/
theorem claim_network_star_shape_witness :
    (⟨"M", "R", 3⟩ : NetworkEdge).source = "M" := by
  have h := (claim_network_star_shape "M"
    { related_addresses := ["R"], connection_details := [("R", 3)] } []).2.1
    ⟨"M", "R", 3⟩ (by decide)
  exact h
